import Mathlib

/-
  Shallow embedding of the flask-API ticket tracker.

  Source layout (Python):
  * app/models/ticket.py       : SQLAlchemy model `Ticket`
      id Integer primary_key; title String(120) nullable=False;
      description Text nullable; status String(50) default "open";
      priority String(50) default "medium".
  * app/schemas/ticket.py      : `TicketSchema(SQLAlchemyAutoSchema)` with
      load_instance=True.  The auto-derived fields are: `id` dump_only
      (primary key), `title` required, not nullable, Length(max=120),
      `description` optional, allow_none, no length bound, `status` and
      `priority` optional, allow_none, Length(max=50).  Unknown keys in a
      load payload (including the dump-only `id`) raise a validation
      error ("Unknown field.") because marshmallow defaults to RAISE.
  * app/routes/ticket_resource.py : the handlers registered by the active
      `create_app` (flask-smorest).  Validation errors produced by the
      `blp.arguments` decorator are returned with HTTP status 422
      (flask-smorest / webargs default); `abort(404, ...)` yields 404.
  * The persistence layer (SQLAlchemy session over the single Ticket
      table) is modelled as a list of tickets plus an auto-increment
      counter `nextId`; `assigned` records every id the store ever
      assigned, so that freshness of newly assigned ids is expressible.
      Column defaults fire at flush time only for attributes that were
      never set on the instance, which is why a loaded field is modelled
      as `Option (Option String)`: outer `none` = attribute never set,
      `some none` = attribute explicitly set to null.
-/

namespace FlaskTickets

/-- JSON scalar values as they can appear as field values of a request
body object. -/
inductive Json where
  | null : Json
  | str : String → Json
  | num : Int → Json
  | bool : Bool → Json
deriving Repr, DecidableEq

/-- A JSON object body: association list from keys to values (Python
dicts cannot repeat keys; lookups take the first occurrence). -/
abbrev Payload := List (String × Json)

/-- First value stored under key `k`, as Python `data.get(k)`. -/
def lookupKey (p : Payload) (k : String) : Option Json :=
  match p with
  | [] => none
  | (k', v) :: rest => if k' = k then some v else lookupKey rest k

/-- Remove every entry with key `k` from a payload. -/
def eraseKey (p : Payload) (k : String) : Payload :=
  p.filter (fun kv => !(kv.1 == k))

/-- The persisted record shape of app/models/ticket.py.  `description`,
`status` and `priority` are nullable columns, hence `Option String`. -/
structure Ticket where
  id : Nat
  title : String
  description : Option String
  status : Option String
  priority : Option String
deriving Repr, DecidableEq

/-- Result of a successful `TicketSchema` load with load_instance=True:
a transient model instance.  Outer `none` means the attribute was never
set (field absent from the payload), `some none` means it was explicitly
set to null.  `title` can never be set to null (the field is not
nullable), so it needs only one `Option` layer. -/
structure Loaded where
  title : Option String
  description : Option (Option String)
  status : Option (Option String)
  priority : Option (Option String)
deriving Repr, DecidableEq

/-- The keys the schema accepts in a load payload.  `id` is dump_only,
so it is not loadable and counts as unknown on load. -/
def knownLoadKey (k : String) : Bool :=
  k == "title" || k == "description" || k == "status" || k == "priority"

/-- Whether the payload carries any key that is unknown to the schema on
load (marshmallow `unknown = RAISE`). -/
def hasUnknownKey (p : Payload) : Bool :=
  p.any (fun kv => !(knownLoadKey kv.1))

def unknownFieldMsg : String := "Unknown field."

def requiredMsg : String := "Missing data for required field."

def notNullMsg : String := "Field may not be null."

def notStringMsg : String := "Not a valid string."

def tooLongMsg : String := "Longer than maximum length."

def notFoundMsg : String := "Ticket not found"

/-- Deserialize the `title` field on the create path: required, not
nullable, must be a string of length at most 120 (empty is allowed,
marshmallow adds only a max-length validator from String(120)). -/
def loadTitleCreate : Option Json → Except String String
  | none => .error requiredMsg
  | some Json.null => .error notNullMsg
  | some (Json.str s) => if s.length ≤ 120 then .ok s else .error tooLongMsg
  | some _ => .error notStringMsg

/-- Deserialize the `title` field on the partial (PUT) path: the field
may be absent, but when present the same constraints apply and null is
still rejected (partial=True lifts `required`, not `allow_none`). -/
def loadTitlePut : Option Json → Except String (Option String)
  | none => .ok none
  | some Json.null => .error notNullMsg
  | some (Json.str s) => if s.length ≤ 120 then .ok (some s) else .error tooLongMsg
  | some _ => .error notStringMsg

/-- Deserialize an optional nullable string field (`description` with no
length bound, `status` and `priority` with bound 50). -/
def loadNullableStr (maxLen : Option Nat) : Option Json → Except String (Option (Option String))
  | none => .ok none
  | some Json.null => .ok (some none)
  | some (Json.str s) =>
      match maxLen with
      | none => .ok (some (some s))
      | some m => if s.length ≤ m then .ok (some (some s)) else .error tooLongMsg
  | some _ => .error notStringMsg

/-- `TicketSchema().load(data)`: full create-path deserialization. -/
def loadCreate (p : Payload) : Except String Loaded :=
  if hasUnknownKey p then .error unknownFieldMsg
  else
    (loadTitleCreate (lookupKey p "title")).bind fun ti =>
      (loadNullableStr none (lookupKey p "description")).bind fun de =>
        (loadNullableStr (some 50) (lookupKey p "status")).bind fun st =>
          (loadNullableStr (some 50) (lookupKey p "priority")).bind fun pr =>
            .ok ⟨some ti, de, st, pr⟩

/-- `TicketSchema(partial=True).load(data)`: PUT-path deserialization. -/
def loadPut (p : Payload) : Except String Loaded :=
  if hasUnknownKey p then .error unknownFieldMsg
  else
    (loadTitlePut (lookupKey p "title")).bind fun ti =>
      (loadNullableStr none (lookupKey p "description")).bind fun de =>
        (loadNullableStr (some 50) (lookupKey p "status")).bind fun st =>
          (loadNullableStr (some 50) (lookupKey p "priority")).bind fun pr =>
            .ok ⟨ti, de, st, pr⟩

/-- The backing table: one row per ticket, plus the auto-increment
counter and the history of all ids the store ever assigned. -/
structure Store where
  tickets : List Ticket
  nextId : Nat
  assigned : List Nat
deriving Repr, DecidableEq

/-- Store well-formedness: every stored id was assigned, assigned ids
are below the auto-increment counter, and ids are unique across rows
(primary key). -/
def Store.WF (s : Store) : Prop :=
  (∀ t ∈ s.tickets, t.id ∈ s.assigned) ∧
  (∀ j ∈ s.assigned, j < s.nextId) ∧
  (s.tickets.map Ticket.id).Nodup

/-- `db.session.get(Ticket, i)`. -/
def findTicket (s : Store) (i : Nat) : Option Ticket :=
  s.tickets.find? (fun t => t.id == i)

/-- Flush of a freshly added transient instance: the new row gets id
`i`; column defaults ("open" / "medium") fire only for attributes that
were never set on the instance; an attribute explicitly set to null is
stored as NULL.  A successful non-partial load always sets `title`, so
the `getD` fallback for it is unreachable from the handlers. -/
def flushInsert (i : Nat) (l : Loaded) : Ticket :=
  { id := i
    title := l.title.getD ""
    description := l.description.getD none
    status := l.status.getD (some "open")
    priority := l.priority.getD (some "medium") }

/-- `db.session.add` + `commit` for a new instance. -/
def Store.insert (s : Store) (t : Ticket) : Store :=
  { tickets := s.tickets ++ [t], nextId := s.nextId + 1, assigned := s.assigned ++ [t.id] }

/-- `getattr(updated_ticket, attr)` for the three nullable columns of a
loaded transient instance: unset and explicitly-null both read as None. -/
def getattrStr : Option (Option String) → Option String
  | some (some v) => some v
  | _ => none

/-- The merge loop of the active PUT handler: for each of the four
columns, copy the loaded value onto the existing row unless it reads as
None.  The id is never touched. -/
def mergeTicket (t : Ticket) (l : Loaded) : Ticket :=
  { id := t.id
    title := match l.title with | some v => v | none => t.title
    description := match getattrStr l.description with | some v => some v | none => t.description
    status := match getattrStr l.status with | some v => some v | none => t.status
    priority := match getattrStr l.priority with | some v => some v | none => t.priority }

/-- Commit of an in-place mutation of the row with id `i`. -/
def Store.replace (s : Store) (i : Nat) (t' : Ticket) : Store :=
  { s with tickets := s.tickets.map (fun x => if x.id == i then t' else x) }

/-- `db.session.delete` + `commit`: hard delete of the row with id `i`. -/
def Store.remove (s : Store) (i : Nat) : Store :=
  { s with tickets := s.tickets.filter (fun x => !(x.id == i)) }

/-- HTTP responses the handlers can produce. -/
inductive Resp where
  | ticket : Nat → Ticket → Resp
  | list : Nat → List Ticket → Resp
  | empty : Nat → Resp
  | err : Nat → String → Resp
deriving Repr, DecidableEq

/-- Whether a load result is a success. -/
def loadOk : Except String Loaded → Bool
  | .ok _ => true
  | .error _ => false

/-- POST /tickets (TicketList.post): the `blp.arguments(TicketSchema)`
decorator validates the body first (422 on failure), then the view adds
and commits the new instance and responds 201. -/
def postTickets (p : Payload) (s : Store) : Resp × Store :=
  match loadCreate p with
  | .error m => (.err 422 m, s)
  | .ok l =>
      let t := flushInsert s.nextId l
      (.ticket 201 t, s.insert t)

/-- GET /tickets (TicketList.get). -/
def getTickets (s : Store) : Resp :=
  .list 200 s.tickets

/-- GET /tickets/{id} (TicketById.get). -/
def getTicketById (i : Nat) (s : Store) : Resp :=
  match findTicket s i with
  | none => .err 404 notFoundMsg
  | some t => .ticket 200 t

/-- PUT /tickets/{id} (TicketById.put): `blp.arguments(TicketSchema(
partial=True))` validates the body before the view body runs, so a
validation failure answers 422 even for an absent id; then the view
looks the row up (404 if absent), merges the provided fields and
commits. -/
def putTicketById (p : Payload) (i : Nat) (s : Store) : Resp × Store :=
  match loadPut p with
  | .error m => (.err 422 m, s)
  | .ok l =>
      match findTicket s i with
      | none => (.err 404 notFoundMsg, s)
      | some t =>
          let t' := mergeTicket t l
          (.ticket 200 t', s.replace i t')

/-- DELETE /tickets/{id} (TicketById.delete). -/
def deleteTicketById (i : Nat) (s : Store) : Resp × Store :=
  match findTicket s i with
  | none => (.err 404 notFoundMsg, s)
  | some _ => (.empty 204, s.remove i)

/-- Dump of a nullable column. -/
def jsonOfOpt : Option String → Json
  | none => Json.null
  | some v => Json.str v

/-- `TicketSchema().dump(t)`: serializes all five fields, including the
dump-only `id`. -/
def serializeTicket (t : Ticket) : Payload :=
  [("id", Json.num (Int.ofNat t.id)),
   ("title", Json.str t.title),
   ("description", jsonOfOpt t.description),
   ("status", jsonOfOpt t.status),
   ("priority", jsonOfOpt t.priority)]

/- ------------------------------------------------------------------ -/
/- Helper lemmas                                                       -/
/- ------------------------------------------------------------------ -/

theorem except_bind_ok {ε α β : Type} {x : Except ε α} {f : α → Except ε β} {b : β}
    (h : x.bind f = .ok b) : ∃ a, x = .ok a ∧ f a = .ok b := by
  cases x with
  | error e => simp [Except.bind] at h
  | ok a => exact ⟨a, rfl, by simpa [Except.bind] using h⟩

theorem hasUnknownKey_false_iff (p : Payload) :
    hasUnknownKey p = false ↔ ∀ kv ∈ p, knownLoadKey kv.1 = true := by
  unfold hasUnknownKey
  induction p with
  | nil => simp
  | cons a tl ih => cases h : knownLoadKey a.1 <;> simp [h, ih]

theorem lookupKey_mem {p : Payload} {k : String} {v : Json}
    (h : lookupKey p k = some v) : (k, v) ∈ p := by
  induction p with
  | nil => simp [lookupKey] at h
  | cons a tl ih =>
      unfold lookupKey at h
      split at h
      · rename_i heq
        obtain ⟨a1, a2⟩ := a
        simp only [Option.some.injEq] at h
        simp_all
      · simp [ih h]

theorem loadCreate_ok_inv {p : Payload} {l : Loaded} (h : loadCreate p = .ok l) :
    hasUnknownKey p = false ∧
      (∃ ti, l.title = some ti ∧ loadTitleCreate (lookupKey p "title") = .ok ti) ∧
      loadNullableStr none (lookupKey p "description") = .ok l.description ∧
      loadNullableStr (some 50) (lookupKey p "status") = .ok l.status ∧
      loadNullableStr (some 50) (lookupKey p "priority") = .ok l.priority := by
  unfold loadCreate at h
  split at h
  · simp at h
  · rename_i hu
    obtain ⟨ti, h1, h⟩ := except_bind_ok h
    obtain ⟨de, h2, h⟩ := except_bind_ok h
    obtain ⟨st, h3, h⟩ := except_bind_ok h
    obtain ⟨pr, h4, h⟩ := except_bind_ok h
    simp only [Except.ok.injEq] at h
    subst h
    exact ⟨Bool.eq_false_iff.2 hu, ⟨ti, rfl, h1⟩, h2, h3, h4⟩

theorem loadPut_ok_inv {p : Payload} {l : Loaded} (h : loadPut p = .ok l) :
    hasUnknownKey p = false ∧
      loadTitlePut (lookupKey p "title") = .ok l.title ∧
      loadNullableStr none (lookupKey p "description") = .ok l.description ∧
      loadNullableStr (some 50) (lookupKey p "status") = .ok l.status ∧
      loadNullableStr (some 50) (lookupKey p "priority") = .ok l.priority := by
  unfold loadPut at h
  split at h
  · simp at h
  · rename_i hu
    obtain ⟨ti, h1, h⟩ := except_bind_ok h
    obtain ⟨de, h2, h⟩ := except_bind_ok h
    obtain ⟨st, h3, h⟩ := except_bind_ok h
    obtain ⟨pr, h4, h⟩ := except_bind_ok h
    simp only [Except.ok.injEq] at h
    subst h
    exact ⟨Bool.eq_false_iff.2 hu, h1, h2, h3, h4⟩

theorem loadTitleCreate_ok_str {s ti : String}
    (h : loadTitleCreate (some (Json.str s)) = .ok ti) : ti = s := by
  unfold loadTitleCreate at h
  split at h
  · simp at h
  · simp at h
  · rename_i s' heq
    split at h <;> simp_all
  · simp at h

theorem loadNullableStr_ok_none {m : Option Nat} {x : Option (Option String)}
    (h : loadNullableStr m none = .ok x) : x = none := by
  simpa [loadNullableStr] using h.symm

theorem loadNullableStr_ok_null {m : Option Nat} {x : Option (Option String)}
    (h : loadNullableStr m (some Json.null) = .ok x) : x = some none := by
  simpa [loadNullableStr] using h.symm

theorem loadNullableStr_ok_str {m : Option Nat} {s : String} {x : Option (Option String)}
    (h : loadNullableStr m (some (Json.str s)) = .ok x) : x = some (some s) := by
  unfold loadNullableStr at h
  cases m with
  | none => simpa using h.symm
  | some n =>
      simp only at h
      split at h <;> simp_all

theorem loadTitlePut_ok_none {x : Option String}
    (h : loadTitlePut none = .ok x) : x = none := by
  simpa [loadTitlePut] using h.symm

theorem mergeTicket_noop (t : Ticket) : mergeTicket t ⟨none, none, none, none⟩ = t := rfl

theorem map_eq_self {α : Type} {l : List α} {f : α → α}
    (h : ∀ x ∈ l, f x = x) : l.map f = l := by
  induction l with
  | nil => rfl
  | cons a tl ih => simp [h a (by simp), ih (fun x hx => h x (by simp [hx]))]

theorem map_replace_self {l : List Ticket} {i : Nat} {t : Ticket}
    (hnd : (l.map Ticket.id).Nodup)
    (hf : l.find? (fun x => x.id == i) = some t) :
    l.map (fun x => if x.id == i then t else x) = l := by
  induction l with
  | nil => simp [List.find?] at hf
  | cons a tl ih =>
      rw [List.map_cons] at hnd
      rw [List.nodup_cons] at hnd
      cases h : (a.id == i) with
      | true =>
          simp only [List.find?_cons, h] at hf
          simp only [Option.some.injEq] at hf
          subst hf
          rw [List.map_cons, if_pos h]
          have htl : tl.map (fun x => if x.id == i then a else x) = tl := by
            refine map_eq_self (fun x hx => ?_)
            have hxi : (x.id == i) = false := by
              rw [Nat.beq_eq_true_eq] at h
              subst h
              rw [beq_eq_false_iff_ne]
              intro hcon
              exact hnd.1 (by rw [← hcon]; exact List.mem_map_of_mem Ticket.id hx)
            rw [hxi]
            simp
          rw [htl]
      | false =>
          simp only [List.find?_cons, h] at hf
          rw [List.map_cons, if_neg (by simp [h]), ih hnd.2 hf]

theorem find_map_replace {l : List Ticket} {i : Nat} {t t' : Ticket}
    (ht' : t'.id = t.id)
    (hf : l.find? (fun x => x.id == i) = some t) :
    (l.map (fun x => if x.id == i then t' else x)).find? (fun x => x.id == i) = some t' := by
  induction l with
  | nil => simp [List.find?] at hf
  | cons a tl ih =>
      cases h : (a.id == i) with
      | true =>
          simp only [List.find?_cons, h] at hf
          simp only [Option.some.injEq] at hf
          subst hf
          rw [List.map_cons, if_pos h]
          have hp : (t'.id == i) = true := by
            rw [ht']
            exact h
          simp only [List.find?_cons, hp]
      | false =>
          simp only [List.find?_cons, h] at hf
          rw [List.map_cons, if_neg (by simp [h])]
          simp only [List.find?_cons, h]
          exact ih hf

theorem find_remove_none (l : List Ticket) (i : Nat) :
    (l.filter (fun x => !(x.id == i))).find? (fun x => x.id == i) = none := by
  rw [List.find?_eq_none]
  intro x hx
  have := (List.mem_filter.mp hx).2
  simp_all

theorem loadTitleCreate_ok_iff (o : Option Json) :
    (∃ ti, loadTitleCreate o = .ok ti) ↔
      (∃ s, o = some (Json.str s) ∧ s.length ≤ 120) := by
  cases o with
  | none => simp [loadTitleCreate]
  | some j =>
      cases j with
      | null => simp [loadTitleCreate]
      | str s => by_cases h : s.length ≤ 120 <;> simp [loadTitleCreate, h]
      | num n => simp [loadTitleCreate]
      | bool b => simp [loadTitleCreate]

theorem loadNullableStr_ok_iff_unbounded (o : Option Json) :
    (∃ x, loadNullableStr none o = .ok x) ↔
      (o = none ∨ o = some Json.null ∨ ∃ s, o = some (Json.str s)) := by
  cases o with
  | none => simp [loadNullableStr]
  | some j =>
      cases j with
      | null => simp [loadNullableStr]
      | str s => simp [loadNullableStr]
      | num n => simp [loadNullableStr]
      | bool b => simp [loadNullableStr]

theorem loadNullableStr_ok_iff_bounded (n : Nat) (o : Option Json) :
    (∃ x, loadNullableStr (some n) o = .ok x) ↔
      (o = none ∨ o = some Json.null ∨ ∃ s, o = some (Json.str s) ∧ s.length ≤ n) := by
  cases o with
  | none => simp [loadNullableStr]
  | some j =>
      cases j with
      | null => simp [loadNullableStr]
      | str s => by_cases h : s.length ≤ n <;> simp [loadNullableStr, h]
      | num m => simp [loadNullableStr]
      | bool b => simp [loadNullableStr]

/- ------------------------------------------------------------------ -/
/- Sample data for witnesses                                           -/
/- ------------------------------------------------------------------ -/

/-- A stored ticket used as concrete input by witnesses. -/
def sampleTicket : Ticket := ⟨1, "A", some "d", some "open", some "medium"⟩

/-- A store holding `sampleTicket`, with id 1 already assigned. -/
def sampleStore : Store := ⟨[sampleTicket], 2, [1]⟩

/-- The freshly initialized empty store. -/
def emptyStore : Store := ⟨[], 1, []⟩

/- ------------------------------------------------------------------ -/
/- Claims                                                              -/
/- ------------------------------------------------------------------ -/

/-- C5: for every existing ticket id, a PUT with the empty partial
payload answers 200 with the stored ticket and leaves the store exactly
as it was (the empty update is an identity on the store). -/
theorem C5_empty_put_is_identity (s : Store) (i : Nat) (t : Ticket)
    (hwf : s.WF) (hf : findTicket s i = some t) :
    putTicketById [] i s = (.ticket 200 t, s) := by
  have h0 : loadPut [] = .ok ⟨none, none, none, none⟩ := rfl
  simp only [putTicketById, h0, hf, mergeTicket_noop]
  simp only [Prod.mk.injEq, true_and]
  unfold Store.replace
  have hf' : s.tickets.find? (fun x => x.id == i) = some t := hf
  rw [map_replace_self hwf.2.2 hf']

/-- C5 witness: the theorem applied to the one-ticket sample store. -/
theorem C5_empty_put_is_identity_witness :
    putTicketById [] 1 sampleStore = (.ticket 200 sampleTicket, sampleStore) :=
  C5_empty_put_is_identity sampleStore 1 sampleTicket
    (by unfold Store.WF; decide) rfl

/-- C6: for an id absent from the store, GET answers 404, PUT (with a
body that deserializes) answers 404 leaving the store unchanged, and
DELETE answers 404 leaving the store unchanged; moreover after deleting
an existing id, GET on that id answers 404. -/
theorem C6_absent_id_yields_not_found (s : Store) (i : Nat) (p : Payload) :
    (findTicket s i = none → getTicketById i s = .err 404 notFoundMsg) ∧
    (findTicket s i = none → loadOk (loadPut p) = true →
      putTicketById p i s = (.err 404 notFoundMsg, s)) ∧
    (findTicket s i = none → deleteTicketById i s = (.err 404 notFoundMsg, s)) ∧
    (∀ t, findTicket s i = some t →
      getTicketById i (deleteTicketById i s).2 = .err 404 notFoundMsg) := by
  refine ⟨?_, ?_, ?_, ?_⟩
  · intro h
    unfold getTicketById
    rw [h]
  · intro h hok
    cases hl : loadPut p with
    | error m => rw [hl] at hok; simp [loadOk] at hok
    | ok l =>
        unfold putTicketById
        rw [hl, h]
  · intro h
    unfold deleteTicketById
    rw [h]
  · intro t hf
    have h2 : (deleteTicketById i s).2 = s.remove i := by
      unfold deleteTicketById
      rw [hf]
    rw [h2]
    unfold getTicketById findTicket Store.remove
    rw [find_remove_none]

/-- C6 witness: the theorem applied to the sample store, at the absent
id 5 and at the present id 1 followed by its deletion. -/
theorem C6_absent_id_yields_not_found_witness :
    getTicketById 5 sampleStore = .err 404 notFoundMsg ∧
    putTicketById [] 5 sampleStore = (.err 404 notFoundMsg, sampleStore) ∧
    deleteTicketById 5 sampleStore = (.err 404 notFoundMsg, sampleStore) ∧
    getTicketById 1 (deleteTicketById 1 sampleStore).2 = .err 404 notFoundMsg :=
  ⟨(C6_absent_id_yields_not_found sampleStore 5 []).1 rfl,
   (C6_absent_id_yields_not_found sampleStore 5 []).2.1 rfl rfl,
   (C6_absent_id_yields_not_found sampleStore 5 []).2.2.1 rfl,
   (C6_absent_id_yields_not_found sampleStore 1 []).2.2.2 sampleTicket rfl⟩

/-- C7: for an existing ticket and a deserializable partial payload, PUT
answers 200 with the merged ticket and stores it; the merged ticket
keeps the old id unconditionally, and keeps the old value of every
field whose key is absent from the payload. -/
theorem C7_put_updates_only_present_fields
    (p : Payload) (i : Nat) (s : Store) (l : Loaded) (t : Ticket)
    (hload : loadPut p = .ok l) (hf : findTicket s i = some t) :
    (putTicketById p i s).1 = .ticket 200 (mergeTicket t l) ∧
    findTicket (putTicketById p i s).2 i = some (mergeTicket t l) ∧
    (mergeTicket t l).id = t.id ∧
    (lookupKey p "title" = none → (mergeTicket t l).title = t.title) ∧
    (lookupKey p "description" = none → (mergeTicket t l).description = t.description) ∧
    (lookupKey p "status" = none → (mergeTicket t l).status = t.status) ∧
    (lookupKey p "priority" = none → (mergeTicket t l).priority = t.priority) := by
  obtain ⟨hu, h1, h2, h3, h4⟩ := loadPut_ok_inv hload
  have hfull : putTicketById p i s =
      (.ticket 200 (mergeTicket t l), s.replace i (mergeTicket t l)) := by
    unfold putTicketById
    rw [hload, hf]
  refine ⟨by rw [hfull], ?_, rfl, ?_, ?_, ?_, ?_⟩
  · rw [hfull]
    unfold Store.replace findTicket
    have hid : (mergeTicket t l).id = t.id := rfl
    exact find_map_replace hid hf
  · intro h
    rw [h] at h1
    have := loadTitlePut_ok_none h1
    simp [mergeTicket, this]
  · intro h
    rw [h] at h2
    have := loadNullableStr_ok_none h2
    simp [mergeTicket, this, getattrStr]
  · intro h
    rw [h] at h3
    have := loadNullableStr_ok_none h3
    simp [mergeTicket, this, getattrStr]
  · intro h
    rw [h] at h4
    have := loadNullableStr_ok_none h4
    simp [mergeTicket, this, getattrStr]

/-- C7 witness: PUT of a status-only payload on the sample store leaves
title, description and priority at their stored values and keeps id 1. -/
theorem C7_put_updates_only_present_fields_witness :
    (putTicketById [("status", Json.str "closed")] 1 sampleStore).1 =
      .ticket 200 (mergeTicket sampleTicket ⟨none, none, some (some "closed"), none⟩) ∧
    findTicket (putTicketById [("status", Json.str "closed")] 1 sampleStore).2 1 =
      some (mergeTicket sampleTicket ⟨none, none, some (some "closed"), none⟩) ∧
    (mergeTicket sampleTicket ⟨none, none, some (some "closed"), none⟩).id = sampleTicket.id ∧
    (mergeTicket sampleTicket ⟨none, none, some (some "closed"), none⟩).title = sampleTicket.title ∧
    (mergeTicket sampleTicket ⟨none, none, some (some "closed"), none⟩).description =
      sampleTicket.description ∧
    (mergeTicket sampleTicket ⟨none, none, some (some "closed"), none⟩).priority =
      sampleTicket.priority := by
  have h := C7_put_updates_only_present_fields [("status", Json.str "closed")] 1 sampleStore
    ⟨none, none, some (some "closed"), none⟩ sampleTicket rfl rfl
  exact ⟨h.1, h.2.1, h.2.2.1, h.2.2.2.1 rfl, h.2.2.2.2.1 rfl, h.2.2.2.2.2.2 rfl⟩

/-- C10: in the active PUT handler the body is validated by the
arguments decorator before the view looks the id up, so a request whose
body fails validation and whose path id is absent answers with the
validation error (422), never 404, and leaves the store unchanged. -/
theorem C10_put_validates_body_before_lookup
    (p : Payload) (i : Nat) (s : Store) (m : String)
    (_habsent : findTicket s i = none) (herr : loadPut p = .error m) :
    putTicketById p i s = (.err 422 m, s) := by
  unfold putTicketById
  rw [herr]

/-- C10 witness: a non-string title with an absent path id answers the
validation error, not 404. -/
theorem C10_put_validates_body_before_lookup_witness :
    putTicketById [("title", Json.num 0)] 9 emptyStore = (.err 422 notStringMsg, emptyStore) :=
  C10_put_validates_body_before_lookup [("title", Json.num 0)] 9 emptyStore notStringMsg rfl rfl

/-- C4 counterexample: the claim says every validation error answers
HTTP 400, but the flask-smorest arguments decorator answers 422: a
create payload whose title is not a string is answered with status 422,
which is not 400. -/
theorem C4_counterexample_validation_code_is_422 :
    postTickets [("title", Json.num 3)] emptyStore = (.err 422 notStringMsg, emptyStore) ∧
      (422 : Nat) ≠ 400 :=
  ⟨rfl, by decide⟩

/-- C4 amended: validation failures on create and update answer HTTP
422 (the flask-smorest default), not 400, leaving the store unchanged;
an absent id answers HTTP 404 on GET, PUT (with a deserializable body)
and DELETE, leaving the store unchanged.  Storage failures are not
handled anywhere in the handler code (an exception would surface as the
framework generic 500), so no 500 path exists in the handlers. -/
theorem C4_amended_error_taxonomy (p : Payload) (i : Nat) (s : Store) (m : String) :
    (loadCreate p = .error m → postTickets p s = (.err 422 m, s)) ∧
    (loadPut p = .error m → putTicketById p i s = (.err 422 m, s)) ∧
    (findTicket s i = none → getTicketById i s = .err 404 notFoundMsg) ∧
    (findTicket s i = none → loadOk (loadPut p) = true →
      putTicketById p i s = (.err 404 notFoundMsg, s)) ∧
    (findTicket s i = none → deleteTicketById i s = (.err 404 notFoundMsg, s)) := by
  refine ⟨?_, ?_, ?_, ?_, ?_⟩
  · intro h
    unfold postTickets
    rw [h]
  · intro h
    unfold putTicketById
    rw [h]
  · intro h
    unfold getTicketById
    rw [h]
  · intro h hok
    cases hl : loadPut p with
    | error e => rw [hl] at hok; simp [loadOk] at hok
    | ok l =>
        unfold putTicketById
        rw [hl, h]
  · intro h
    unfold deleteTicketById
    rw [h]

/-- C4 amended witness: the amended taxonomy evaluated on concrete
requests against the empty store. -/
theorem C4_amended_error_taxonomy_witness :
    postTickets [("title", Json.num 3)] emptyStore = (.err 422 notStringMsg, emptyStore) ∧
    putTicketById [("title", Json.num 3)] 1 emptyStore = (.err 422 notStringMsg, emptyStore) ∧
    getTicketById 1 emptyStore = .err 404 notFoundMsg ∧
    putTicketById [] 1 emptyStore = (.err 404 notFoundMsg, emptyStore) ∧
    deleteTicketById 1 emptyStore = (.err 404 notFoundMsg, emptyStore) :=
  ⟨(C4_amended_error_taxonomy [("title", Json.num 3)] 1 emptyStore notStringMsg).1 rfl,
   (C4_amended_error_taxonomy [("title", Json.num 3)] 1 emptyStore notStringMsg).2.1 rfl,
   (C4_amended_error_taxonomy [] 1 emptyStore notStringMsg).2.2.1 rfl,
   (C4_amended_error_taxonomy [] 1 emptyStore notStringMsg).2.2.2.1 rfl rfl,
   (C4_amended_error_taxonomy [] 1 emptyStore notStringMsg).2.2.2.2 rfl⟩

/-- C2 counterexample: the claim says an explicit JSON null for any of
the four fields is treated like an absent field and the update
succeeds, but a null `title` fails schema validation (the auto-derived
title field is not nullable): the PUT is answered 422 and nothing is
stored. -/
theorem C2_counterexample_null_title_rejected :
    putTicketById [("title", Json.null)] 1 sampleStore = (.err 422 notNullMsg, sampleStore) :=
  rfl

/-- C2 amended: an explicit null for `description`, `status` or
`priority` is treated like an absent field (the update succeeds when
the rest of the body is valid and the stored value is kept), but an
explicit null `title` fails validation with a 422 answer and leaves
the store unchanged. -/
theorem C2_amended_null_field_semantics (p : Payload) (i : Nat) (s : Store) :
    (lookupKey p "title" = some Json.null → ∃ m, putTicketById p i s = (.err 422 m, s)) ∧
    (∀ l t, loadPut p = .ok l → findTicket s i = some t →
      (putTicketById p i s).1 = .ticket 200 (mergeTicket t l) ∧
      (lookupKey p "description" = some Json.null →
        (mergeTicket t l).description = t.description) ∧
      (lookupKey p "status" = some Json.null → (mergeTicket t l).status = t.status) ∧
      (lookupKey p "priority" = some Json.null → (mergeTicket t l).priority = t.priority)) := by
  constructor
  · intro hnull
    cases hu : hasUnknownKey p with
    | true =>
        have hl : loadPut p = .error unknownFieldMsg := by
          unfold loadPut
          rw [if_pos hu]
        exact ⟨unknownFieldMsg, by unfold putTicketById; rw [hl]⟩
    | false =>
        have hl : loadPut p = .error notNullMsg := by
          unfold loadPut
          rw [if_neg (by simp [hu]), hnull]
          rfl
        exact ⟨notNullMsg, by unfold putTicketById; rw [hl]⟩
  · intro l t hl hf
    obtain ⟨hu, h1, h2, h3, h4⟩ := loadPut_ok_inv hl
    have hresp : (putTicketById p i s).1 = .ticket 200 (mergeTicket t l) := by
      unfold putTicketById
      rw [hl, hf]
    refine ⟨hresp, ?_, ?_, ?_⟩
    · intro h
      rw [h] at h2
      have := loadNullableStr_ok_null h2
      simp [mergeTicket, this, getattrStr]
    · intro h
      rw [h] at h3
      have := loadNullableStr_ok_null h3
      simp [mergeTicket, this, getattrStr]
    · intro h
      rw [h] at h4
      have := loadNullableStr_ok_null h4
      simp [mergeTicket, this, getattrStr]

/-- C2 amended witness: a null title on the sample store is answered
422 with the store unchanged; a null status on the sample store is
answered 200 and keeps the stored status. -/
theorem C2_amended_null_field_semantics_witness :
    (∃ m, putTicketById [("title", Json.null)] 1 sampleStore = (.err 422 m, sampleStore)) ∧
    (putTicketById [("status", Json.null)] 1 sampleStore).1 =
      .ticket 200 (mergeTicket sampleTicket ⟨none, none, some none, none⟩) ∧
    (mergeTicket sampleTicket ⟨none, none, some none, none⟩).status = sampleTicket.status := by
  refine ⟨(C2_amended_null_field_semantics [("title", Json.null)] 1 sampleStore).1 rfl, ?_, ?_⟩
  · exact ((C2_amended_null_field_semantics [("status", Json.null)] 1 sampleStore).2
      ⟨none, none, some none, none⟩ sampleTicket rfl rfl).1
  · exact ((C2_amended_null_field_semantics [("status", Json.null)] 1 sampleStore).2
      ⟨none, none, some none, none⟩ sampleTicket rfl rfl).2.2.1 rfl

/-- C1: for every valid creation payload (title present as a string,
here additionally non-empty and within 120 characters as the claim
scopes it), POST answers 201 with a ticket whose id is the store
auto-increment value, distinct from every previously assigned id, whose
title is the supplied one, and whose status and priority equal the
supplied values or default to "open" and "medium" when omitted. -/
theorem C1_create_fresh_id_and_defaults
    (p : Payload) (s : Store) (l : Loaded) (ti : String)
    (hwf : s.WF)
    (hload : loadCreate p = .ok l)
    (hti : lookupKey p "title" = some (Json.str ti))
    (_hne : ti ≠ "") :
    ∃ t s', postTickets p s = (.ticket 201 t, s') ∧
      t.id = s.nextId ∧
      t.id ∉ s.assigned ∧
      s'.assigned = s.assigned ++ [t.id] ∧
      t.title = ti ∧
      (lookupKey p "status" = none → t.status = some "open") ∧
      (∀ v, lookupKey p "status" = some (Json.str v) → t.status = some v) ∧
      (lookupKey p "priority" = none → t.priority = some "medium") ∧
      (∀ v, lookupKey p "priority" = some (Json.str v) → t.priority = some v) := by
  obtain ⟨hu, ⟨ti', hlt, h1⟩, h2, h3, h4⟩ := loadCreate_ok_inv hload
  rw [hti] at h1
  have hti' : ti' = ti := loadTitleCreate_ok_str h1
  subst hti'
  refine ⟨flushInsert s.nextId l, s.insert (flushInsert s.nextId l),
    ?_, rfl, ?_, rfl, ?_, ?_, ?_, ?_, ?_⟩
  · unfold postTickets
    rw [hload]
  · intro hmem
    exact Nat.lt_irrefl _ (hwf.2.1 _ hmem)
  · simp [flushInsert, hlt]
  · intro hst
    rw [hst] at h3
    have := loadNullableStr_ok_none h3
    simp [flushInsert, this]
  · intro v hv
    rw [hv] at h3
    have := loadNullableStr_ok_str h3
    simp [flushInsert, this]
  · intro hpr
    rw [hpr] at h4
    have := loadNullableStr_ok_none h4
    simp [flushInsert, this]
  · intro v hv
    rw [hv] at h4
    have := loadNullableStr_ok_str h4
    simp [flushInsert, this]

/-- C1 witness: the spec scenario payload (title and priority supplied,
status omitted) against the empty store: the created ticket gets the
fresh id 1, the supplied title and priority, and default status. -/
theorem C1_create_fresh_id_and_defaults_witness :
    ∃ t s', postTickets [("title", Json.str "Test Ticket"), ("priority", Json.str "low")]
        emptyStore = (.ticket 201 t, s') ∧
      t.id = 1 ∧
      t.id ∉ ([] : List Nat) ∧
      s'.assigned = [] ++ [t.id] ∧
      t.title = "Test Ticket" ∧
      (lookupKey [("title", Json.str "Test Ticket"), ("priority", Json.str "low")] "status" =
          none → t.status = some "open") ∧
      (∀ v, lookupKey [("title", Json.str "Test Ticket"), ("priority", Json.str "low")]
          "status" = some (Json.str v) → t.status = some v) ∧
      (lookupKey [("title", Json.str "Test Ticket"), ("priority", Json.str "low")] "priority" =
          none → t.priority = some "medium") ∧
      (∀ v, lookupKey [("title", Json.str "Test Ticket"), ("priority", Json.str "low")]
          "priority" = some (Json.str v) → t.priority = some v) :=
  C1_create_fresh_id_and_defaults
    [("title", Json.str "Test Ticket"), ("priority", Json.str "low")] emptyStore
    ⟨some "Test Ticket", none, none, some (some "low")⟩ "Test Ticket"
    (by unfold Store.WF; decide) rfl rfl (by decide)

/-- C3 counterexample: the claim says every payload with an empty
title is rejected, but the auto-derived schema carries only a maximum
length validator, so deserializing a create payload whose title is the
empty string succeeds. -/
theorem C3_counterexample_empty_title_accepted :
    loadCreate [("title", Json.str "")] = .ok ⟨some "", none, none, none⟩ :=
  rfl

/-- C3 amended: create-path deserialization succeeds exactly when every
key is one of title/description/status/priority (in particular a
client-sent id key is rejected as unknown), the title is present as a
string of at most 120 characters (the empty string is accepted), the
description is absent, null or a string, and status and priority are
absent, null or strings of at most 50 characters; it fails with a
validation error in every other case. -/
theorem C3_amended_create_validation_iff (p : Payload) :
    (∃ l, loadCreate p = .ok l) ↔
      ((∀ kv ∈ p, knownLoadKey kv.1 = true) ∧
       (∃ s, lookupKey p "title" = some (Json.str s) ∧ s.length ≤ 120) ∧
       (lookupKey p "description" = none ∨ lookupKey p "description" = some Json.null ∨
         ∃ s, lookupKey p "description" = some (Json.str s)) ∧
       (lookupKey p "status" = none ∨ lookupKey p "status" = some Json.null ∨
         ∃ s, lookupKey p "status" = some (Json.str s) ∧ s.length ≤ 50) ∧
       (lookupKey p "priority" = none ∨ lookupKey p "priority" = some Json.null ∨
         ∃ s, lookupKey p "priority" = some (Json.str s) ∧ s.length ≤ 50)) := by
  constructor
  · rintro ⟨l, h⟩
    obtain ⟨hu, ⟨ti, hlt, h1⟩, h2, h3, h4⟩ := loadCreate_ok_inv h
    exact ⟨(hasUnknownKey_false_iff p).1 hu,
      (loadTitleCreate_ok_iff _).1 ⟨ti, h1⟩,
      (loadNullableStr_ok_iff_unbounded _).1 ⟨l.description, h2⟩,
      (loadNullableStr_ok_iff_bounded _ _).1 ⟨l.status, h3⟩,
      (loadNullableStr_ok_iff_bounded _ _).1 ⟨l.priority, h4⟩⟩
  · rintro ⟨hk, ht, hd, hs, hp⟩
    have hu : hasUnknownKey p = false := (hasUnknownKey_false_iff p).2 hk
    obtain ⟨ti, h1⟩ := (loadTitleCreate_ok_iff _).2 ht
    obtain ⟨de, h2⟩ := (loadNullableStr_ok_iff_unbounded _).2 hd
    obtain ⟨st, h3⟩ := (loadNullableStr_ok_iff_bounded _ _).2 hs
    obtain ⟨pr, h4⟩ := (loadNullableStr_ok_iff_bounded _ _).2 hp
    refine ⟨⟨some ti, de, st, pr⟩, ?_⟩
    unfold loadCreate
    rw [if_neg (by simp [hu]), h1]
    simp only [Except.bind, h2, h3, h4]

/-- C3 amended witness: the characterization applied to a concrete
valid create payload. -/
theorem C3_amended_create_validation_iff_witness :
    (∀ kv ∈ [("title", Json.str "x")], knownLoadKey kv.1 = true) ∧
    (∃ s, lookupKey [("title", Json.str "x")] "title" = some (Json.str s) ∧ s.length ≤ 120) ∧
    (lookupKey [("title", Json.str "x")] "description" = none ∨
      lookupKey [("title", Json.str "x")] "description" = some Json.null ∨
      ∃ s, lookupKey [("title", Json.str "x")] "description" = some (Json.str s)) ∧
    (lookupKey [("title", Json.str "x")] "status" = none ∨
      lookupKey [("title", Json.str "x")] "status" = some Json.null ∨
      ∃ s, lookupKey [("title", Json.str "x")] "status" = some (Json.str s) ∧ s.length ≤ 50) ∧
    (lookupKey [("title", Json.str "x")] "priority" = none ∨
      lookupKey [("title", Json.str "x")] "priority" = some Json.null ∨
      ∃ s, lookupKey [("title", Json.str "x")] "priority" = some (Json.str s) ∧
        s.length ≤ 50) :=
  (C3_amended_create_validation_iff [("title", Json.str "x")]).mp
    ⟨⟨some "x", none, none, none⟩, rfl⟩

/-- C8: a client-supplied id is never honored: any create payload
carrying an id key is rejected with the unknown-field validation error
(422) and nothing is created; and whenever create does answer 201 with
a ticket, that ticket id is the store auto-increment value, whatever
the payload contained. -/
theorem C8_client_id_never_honored (p : Payload) (s : Store) :
    (∀ v, lookupKey p "id" = some v → postTickets p s = (.err 422 unknownFieldMsg, s)) ∧
    (∀ t s', postTickets p s = (.ticket 201 t, s') → t.id = s.nextId) := by
  constructor
  · intro v hv
    have hmem : ("id", v) ∈ p := lookupKey_mem hv
    have hu : hasUnknownKey p = true := by
      unfold hasUnknownKey
      rw [List.any_eq_true]
      refine ⟨("id", v), hmem, ?_⟩
      show (!(knownLoadKey "id")) = true
      decide
    have hl : loadCreate p = .error unknownFieldMsg := by
      unfold loadCreate
      rw [if_pos hu]
    unfold postTickets
    rw [hl]
  · intro t s' h
    cases hl : loadCreate p with
    | error m =>
        have : postTickets p s = (.err 422 m, s) := by
          unfold postTickets
          rw [hl]
        rw [this] at h
        simp at h
    | ok l =>
        have : postTickets p s = (.ticket 201 (flushInsert s.nextId l),
            s.insert (flushInsert s.nextId l)) := by
          unfold postTickets
          rw [hl]
        rw [this] at h
        simp only [Prod.mk.injEq, Resp.ticket.injEq] at h
        rw [← h.1.2]
        rfl

/-- C8 witness: a create payload with an id key is rejected against the
empty store; a plain create against the empty store yields a ticket
with the server-assigned id 1. -/
theorem C8_client_id_never_honored_witness :
    postTickets [("id", Json.num 7), ("title", Json.str "T")] emptyStore =
      (.err 422 unknownFieldMsg, emptyStore) ∧
    Ticket.id ⟨1, "T", none, some "open", some "medium"⟩ = emptyStore.nextId :=
  ⟨(C8_client_id_never_honored [("id", Json.num 7), ("title", Json.str "T")] emptyStore).1
      (Json.num 7) rfl,
   (C8_client_id_never_honored [("title", Json.str "T")] emptyStore).2
      ⟨1, "T", none, some "open", some "medium"⟩
      ⟨[⟨1, "T", none, some "open", some "medium"⟩], 2, [1]⟩ rfl⟩

/-- C9 counterexample: the dump of a full ticket contains the id key,
which the load path rejects as unknown (the id field is dump-only), so
deserializing the serialization of a full ticket fails instead of
reproducing its field values. -/
theorem C9_counterexample_roundtrip_rejected :
    loadCreate (serializeTicket ⟨1, "A", some "d", some "open", some "medium"⟩) =
      .error unknownFieldMsg :=
  rfl

/-- C9 amended: for a full ticket (description, status and priority all
populated, within the model column lengths), deserializing its
serialization with the server-assigned id entry removed succeeds and
reproduces the title, description, status and priority values. -/
theorem C9_amended_roundtrip_without_id (t : Ticket) (d st pr : String)
    (hd : t.description = some d) (hs : t.status = some st) (hp : t.priority = some pr)
    (h1 : t.title.length ≤ 120) (h2 : st.length ≤ 50) (h3 : pr.length ≤ 50) :
    loadCreate (eraseKey (serializeTicket t) "id") =
      .ok ⟨some t.title, some t.description, some t.status, some t.priority⟩ := by
  rw [hd, hs, hp]
  have e0 : eraseKey (serializeTicket t) "id" =
      [("title", Json.str t.title), ("description", jsonOfOpt t.description),
       ("status", jsonOfOpt t.status), ("priority", jsonOfOpt t.priority)] := by
    simp [eraseKey, serializeTicket]
  rw [e0, hd, hs, hp]
  simp only [jsonOfOpt]
  unfold loadCreate
  rw [if_neg (by simp [hasUnknownKey, knownLoadKey])]
  have l1 : lookupKey [("title", Json.str t.title), ("description", Json.str d),
      ("status", Json.str st), ("priority", Json.str pr)] "title" =
      some (Json.str t.title) := by simp [lookupKey]
  have l2 : lookupKey [("title", Json.str t.title), ("description", Json.str d),
      ("status", Json.str st), ("priority", Json.str pr)] "description" =
      some (Json.str d) := by simp [lookupKey]
  have l3 : lookupKey [("title", Json.str t.title), ("description", Json.str d),
      ("status", Json.str st), ("priority", Json.str pr)] "status" =
      some (Json.str st) := by simp [lookupKey]
  have l4 : lookupKey [("title", Json.str t.title), ("description", Json.str d),
      ("status", Json.str st), ("priority", Json.str pr)] "priority" =
      some (Json.str pr) := by simp [lookupKey]
  rw [l1, l2, l3, l4]
  rw [show loadTitleCreate (some (Json.str t.title)) = .ok t.title from by
    simp [loadTitleCreate, h1]]
  simp only [Except.bind]
  rw [show loadNullableStr none (some (Json.str d)) = .ok (some (some d)) from rfl]
  simp only [Except.bind]
  rw [show loadNullableStr (some 50) (some (Json.str st)) = .ok (some (some st)) from by
    simp [loadNullableStr, h2]]
  simp only [Except.bind]
  rw [show loadNullableStr (some 50) (some (Json.str pr)) = .ok (some (some pr)) from by
    simp [loadNullableStr, h3]]

/-- C9 amended witness: the round trip without the id entry evaluated
on the sample ticket. -/
theorem C9_amended_roundtrip_without_id_witness :
    loadCreate (eraseKey (serializeTicket sampleTicket) "id") =
      .ok ⟨some "A", some (some "d"), some (some "open"), some (some "medium")⟩ :=
  C9_amended_roundtrip_without_id sampleTicket "d" "open" "medium" rfl rfl rfl
    (by decide) (by decide) (by decide)

end FlaskTickets
